import Mathlib

/-!
Shallow embedding of `src/3rd_party/polyscope/src/point_cloud_scalar_quantity.cpp`
(`polyscope::PointCloudScalarQuantity`): the scalar-field visualization overlay
for a point-cloud renderer.  C++ doubles are embedded as `ℚ` (every operation
the embedded code performs — copy, negation, `abs`, `max`, comparison — is exact
on the represented values), `std::pair<double,double>` as `ℚ × ℚ`, vectors as
lists, and the lazily built GL program as an `Option` holding the data baked
into it.  External collaborators that are not part of this translation unit
(the robust range estimator, the default-colormap table, the error sink, the
ImGui widgets) are modelled at their interface boundary; definitions modelled
from the design document rather than from a source file in this repository say
so in their doc comment.
-/

namespace Polyscope

/-- The three scalar-data semantics, `DataType` in the source. -/
inductive DataType : Type
  | STANDARD
  | SYMMETRIC
  | MAGNITUDE
  deriving DecidableEq, Repr

/-- Modelled from the spec: `gl::ColorMapID` is an "identifier into an external
colormap registry" (its enum is not under `src/`); embedded as a bare `Nat`. -/
abbrev ColorMapID : Type := Nat

/-- Modelled from the spec: `defaultColorMap` is not under `src/`; the spec
says only "one fixed default per mode", so each mode maps to a fixed,
distinct identifier. -/
def defaultColorMap : DataType → ColorMapID
  | DataType.STANDARD => 0
  | DataType.SYMMETRIC => 1
  | DataType.MAGNITUDE => 2

/-- The Histogram collaborator (`hist`), modelled at its interface boundary:
it records the colormap it was last given, the value distribution it was last
given, and the `colormapRange` field written each UI frame. -/
structure Histogram where
  colormap : ColorMapID
  distributionValues : List ℚ
  colormapRange : ℚ × ℚ
  deriving DecidableEq, Repr

/-- `hist.updateColormap(cm)`: the histogram re-derives its color lookup. -/
def Histogram.updateColormap (h : Histogram) (cm : ColorMapID) : Histogram :=
  { h with colormap := cm }

/-- `hist.buildHistogram(values)`: the histogram rebuilds from a value list. -/
def Histogram.buildHistogram (h : Histogram) (vs : List ℚ) : Histogram :=
  { h with distributionValues := vs }

/-- The data `createPointProgram` bakes into the GL draw program: the point
positions bound to `a_position`, the scalar values bound to `a_value`, and the
colormap whose texture is bound to `t_colormap`. -/
structure GLProgramData where
  a_position : List (ℚ × ℚ × ℚ)
  a_value : List ℚ
  t_colormap : ColorMapID
  deriving DecidableEq, Repr

/-- The state of a `PointCloudScalarQuantity` together with the pieces of its
environment the embedded code touches: the owning cloud's point list
(`parent.points`), the error sink (`polyscope::error` appends to `errorLog`),
and the process-wide redraw flag (`requestRedraw` sets `redrawRequested`). -/
structure PointCloudScalarQuantity where
  name : String
  enabled : Bool
  dataType : DataType
  cMap : ColorMapID
  values : List ℚ
  parentPoints : List (ℚ × ℚ × ℚ)
  dataRange : ℚ × ℚ
  vizRange : ℚ × ℚ
  hist : Histogram
  pointProgram : Option GLProgramData
  errorLog : List String
  redrawRequested : Bool
  deriving DecidableEq, Repr

/-- `requestRedraw()`: fire-and-forget signal to the process-wide flag. -/
def requestRedraw (s : PointCloudScalarQuantity) : PointCloudScalarQuantity :=
  { s with redrawRequested := true }

/-- Modelled from the spec: `robustMinMax` (the RobustRangeEstimator, spec
section 4.1) is not under `src/`.  Per the spec it sorts a copy of the values,
discards the lowest and the highest `trimFraction` of the entries as outliers,
and returns the min/max of the remaining subset; when trimming would discard
all data it degrades to the full range, and on empty input it returns a
collapsed range rather than raising. -/
def robustMinMax (values : List ℚ) (trimFraction : ℚ) : ℚ × ℚ :=
  match values with
  | [] => (0, 0)
  | v :: _ =>
    let n : Nat := values.length
    -- the number of entries trimmed at each end, ⌊trimFraction * n⌋, computed
    -- on num/den so it stays defined for the spec's trim fractions in [0, 0.5)
    let nTrim : Nat := trimFraction.num.toNat * n / trimFraction.den
    let sorted : List ℚ := values.insertionSort (fun a b => a ≤ b)
    let kept : List ℚ :=
      if 2 * nTrim < n then (sorted.drop nTrim).take (n - 2 * nTrim) else sorted
    (kept.headD v, kept.getLastD v)

/-- `PointCloudScalarQuantity::resetMapRange` (point_cloud_scalar_quantity.cpp
lines 53-69): recompute `vizRange` from `dataType` and `dataRange`, then
request a redraw. -/
def resetMapRange (s : PointCloudScalarQuantity) : PointCloudScalarQuantity :=
  let s1 :=
    match s.dataType with
    | DataType.STANDARD => { s with vizRange := s.dataRange }
    | DataType.SYMMETRIC =>
      let absRange : ℚ := max |s.dataRange.1| |s.dataRange.2|
      { s with vizRange := (-absRange, absRange) }
    | DataType.MAGNITUDE => { s with vizRange := (0, s.dataRange.2) }
  requestRedraw s1

/-- One step of the construction sequence, for stating in which order the
constructor performs its effects. -/
inductive CtorStep : Type
  | pickDefaultColormap
  | copyValues
  | notifyHistColormap
  | notifyHistDistribution
  | estimateRange (trimFraction : ℚ)
  | resetRangeTransform
  deriving DecidableEq, Repr

/-- The constructor `PointCloudScalarQuantity::PointCloudScalarQuantity`
(lines 14-34), returning the constructed state together with the trace of its
steps in the order the source performs them.  The initializer list runs first
(base-class fields, `dataType`, `cMap := defaultColorMap(dataType)`); the body
then checks the length precondition (reporting a non-fatal error on mismatch —
`polyscope::error` is not under `src/` and is modelled from the spec as a
logged, non-raising report), copies the raw data, notifies the histogram of
the colormap and of the value distribution, computes `dataRange` with trim
fraction `1e-5` (the rational `mkRat 1 100000`), and calls `resetMapRange`. -/
def construct (name : String) (values_ : List ℚ) (parentPoints : List (ℚ × ℚ × ℚ))
    (dataType_ : DataType) : PointCloudScalarQuantity × List CtorStep :=
  let s0 : PointCloudScalarQuantity :=
    { name := name
      enabled := true
      dataType := dataType_
      cMap := defaultColorMap dataType_
      values := []
      parentPoints := parentPoints
      dataRange := (0, 0)
      vizRange := (0, 0)
      hist := { colormap := 0, distributionValues := [], colormapRange := (0, 0) }
      pointProgram := none
      errorLog := []
      redrawRequested := false }
  let tr0 : List CtorStep := [CtorStep.pickDefaultColormap]
  let s1 :=
    { s0 with errorLog :=
        if values_.length ≠ parentPoints.length then
          s0.errorLog ++
            ["Point cloud scalar quantity " ++ name ++
             " does not have same number of values (" ++ toString values_.length ++
             ") as point cloud size (" ++ toString parentPoints.length ++ ")"]
        else s0.errorLog }
  let s2 := { s1 with values := values_ }
  let tr2 := tr0 ++ [CtorStep.copyValues]
  let s3 := { s2 with hist := s2.hist.updateColormap s2.cMap }
  let tr3 := tr2 ++ [CtorStep.notifyHistColormap]
  let s4 := { s3 with hist := s3.hist.buildHistogram s3.values }
  let tr4 := tr3 ++ [CtorStep.notifyHistDistribution]
  let s5 := { s4 with dataRange := robustMinMax s4.values (mkRat 1 100000) }
  let tr5 := tr4 ++ [CtorStep.estimateRange (mkRat 1 100000)]
  let s6 := resetMapRange s5
  let tr6 := tr5 ++ [CtorStep.resetRangeTransform]
  (s6, tr6)

/-- `PointCloudScalarQuantity::setColorMap` (lines 148-153): store the id,
notify the histogram, request a redraw.  It does not touch `pointProgram`. -/
def setColorMap (s : PointCloudScalarQuantity) (val : ColorMapID) :
    PointCloudScalarQuantity :=
  let s1 := { s with cMap := val }
  let s2 := { s1 with hist := s1.hist.updateColormap s1.cMap }
  requestRedraw s2

/-- `PointCloudScalarQuantity::getColorMap` (line 154): pure accessor. -/
def getColorMap (s : PointCloudScalarQuantity) : ColorMapID :=
  s.cMap

/-- `PointCloudScalarQuantity::setMapRange` (lines 155-159): store the pair
verbatim and request a redraw; no validation, no clamping. -/
def setMapRange (s : PointCloudScalarQuantity) (val : ℚ × ℚ) :
    PointCloudScalarQuantity :=
  requestRedraw { s with vizRange := val }

/-- `PointCloudScalarQuantity::getMapRange` (line 160): pure accessor. -/
def getMapRange (s : PointCloudScalarQuantity) : ℚ × ℚ :=
  s.vizRange

/-- `PointCloudScalarQuantity::geometryChanged` (line 139): drop the built
draw program; nothing else. -/
def geometryChanged (s : PointCloudScalarQuantity) : PointCloudScalarQuantity :=
  { s with pointProgram := none }

/-- `PointCloudScalarQuantity::createPointProgram` (lines 125-137): build the
program, baking in the point positions, the scalar values, and the current
colormap's texture. -/
def createPointProgram (s : PointCloudScalarQuantity) : PointCloudScalarQuantity :=
  let prog : GLProgramData :=
    { a_position := s.parentPoints, a_value := s.values, t_colormap := s.cMap }
  { s with pointProgram := some prog }

/-- The uniforms `draw` hands the renderer each frame. -/
structure DrawUniforms where
  u_rangeLow : ℚ
  u_rangeHigh : ℚ
  deriving DecidableEq, Repr

/-- `PointCloudScalarQuantity::draw` (lines 36-51): a disabled quantity emits
nothing; otherwise the program is built lazily if absent, and the current
`vizRange` is emitted as the range uniforms. -/
def draw (s : PointCloudScalarQuantity) :
    PointCloudScalarQuantity × Option DrawUniforms :=
  if s.enabled = false then (s, none)
  else
    let s1 := if s.pointProgram = none then createPointProgram s else s
    (s1, some { u_rangeLow := s1.vizRange.1, u_rangeHigh := s1.vizRange.2 })

/-- `PointCloudScalarQuantity::buildPickUI` (lines 141-146): show the name and
`values[ind]`.  The source indexes with no bounds check; the embedding returns
`none` exactly where the source's access is out of bounds, so the readout is
well-defined iff `ind < values.length`. -/
def buildPickUI (s : PointCloudScalarQuantity) (ind : Nat) :
    Option (String × ℚ) :=
  (s.values.get? ind).map (fun v => (s.name, v))

/-- The user-interaction events one call of `buildCustomUI` can receive from
the ImGui widgets (an external collaborator, modelled at the boundary):
whether the "Reset colormap range" menu item was chosen, the new colormap when
`buildColormapSelector` reports a change, whether the "Reset" button was
pressed, and the pair a drag of the range slider proposes. -/
structure UIEvents where
  optionsResetClicked : Bool
  colormapSelection : Option ColorMapID
  resetClicked : Bool
  sliderEdit : Option (ℚ × ℚ)
  deriving DecidableEq, Repr

/-- Clamp to an interval, as `ImGui::DragFloatRange2` clamps each handle to
its `[vMin, vMax]` arguments. -/
def clampTo (x lo hi : ℚ) : ℚ :=
  max lo (min x hi)

/-- The per-mode slider bounds `buildCustomUI` passes to `DragFloatRange2`
(lines 105-121): `[dataRange.lo, dataRange.hi]` for STANDARD,
`[-absRange, absRange]` for SYMMETRIC, `[0, dataRange.hi]` for MAGNITUDE. -/
def sliderBounds (s : PointCloudScalarQuantity) : ℚ × ℚ :=
  match s.dataType with
  | DataType.STANDARD => (s.dataRange.1, s.dataRange.2)
  | DataType.SYMMETRIC =>
    let absRange : ℚ := max |s.dataRange.1| |s.dataRange.2|
    (-absRange, absRange)
  | DataType.MAGNITUDE => (0, s.dataRange.2)

/-- `PointCloudScalarQuantity::buildCustomUI` (lines 71-122), as a reaction to
one frame's `UIEvents`: the options popup's reset action; the colormap
selector (which writes the new map into `cMap`, drops the program, updates the
histogram, then calls `setColorMap(getColorMap())`, lines 84-88); the "Reset"
button; the per-frame `hist.colormapRange = vizRange` write; and the per-mode
range slider whose handles are clamped to `sliderBounds`. -/
def buildCustomUI (s : PointCloudScalarQuantity) (ui : UIEvents) :
    PointCloudScalarQuantity :=
  let s1 := if ui.optionsResetClicked then resetMapRange s else s
  let s2 :=
    match ui.colormapSelection with
    | some newMap =>
      let t1 := { s1 with cMap := newMap }
      let t2 := { t1 with pointProgram := none }
      let t3 := { t2 with hist := t2.hist.updateColormap t2.cMap }
      setColorMap t3 (getColorMap t3)
    | none => s1
  let s3 := if ui.resetClicked then resetMapRange s2 else s2
  let s4 := { s3 with hist := { s3.hist with colormapRange := s3.vizRange } }
  match ui.sliderEdit with
  | some edit =>
    let bounds := sliderBounds s4
    { s4 with vizRange :=
        (clampTo edit.1 bounds.1 bounds.2, clampTo edit.2 bounds.1 bounds.2) }
  | none => s4

/-- `PointCloudScalarQuantity::niceName` (line 162). -/
def niceName (s : PointCloudScalarQuantity) : String :=
  s.name ++ " (scalar)"

/-- The four mutators the invariant claim quantifies over. -/
inductive MutatorCall : Type
  | resetMapRange
  | setMapRange (val : ℚ × ℚ)
  | setColorMap (val : ColorMapID)
  | geometryChanged
  deriving DecidableEq, Repr

/-- Dispatch one mutator call to the corresponding operation. -/
def applyMutator (s : PointCloudScalarQuantity) : MutatorCall → PointCloudScalarQuantity
  | MutatorCall.resetMapRange => resetMapRange s
  | MutatorCall.setMapRange val => setMapRange s val
  | MutatorCall.setColorMap val => setColorMap s val
  | MutatorCall.geometryChanged => geometryChanged s

/-- A mutator call with valid arguments: `setMapRange` takes an ordered pair
(`lo ≤ hi`, the spec's "any ordered pair", the bounds the UI slider upholds);
the other mutators take no range argument. -/
def ValidCall : MutatorCall → Prop
  | MutatorCall.setMapRange val => val.1 ≤ val.2
  | _ => True

/-- A valid input data set for a mode: MAGNITUDE mode is for non-negative
quantities (spec glossary), the other modes accept any data. -/
def ValidInput (values_ : List ℚ) (dt : DataType) : Prop :=
  dt = DataType.MAGNITUDE → ∀ v ∈ values_, 0 ≤ v

/-- The combined range invariant the mutators preserve: `dataRange` is
ordered, MAGNITUDE mode has a non-negative upper data bound, and `vizRange`
is ordered. -/
def RangeInv (s : PointCloudScalarQuantity) : Prop :=
  s.dataRange.1 ≤ s.dataRange.2 ∧
  (s.dataType = DataType.MAGNITUDE → 0 ≤ s.dataRange.2) ∧
  s.vizRange.1 ≤ s.vizRange.2

/-- In a `≤`-sorted list the default-headed first element bounds every
member. -/
theorem sorted_headD_le {l : List ℚ} {x : ℚ} (d : ℚ)
    (hs : l.Sorted (fun a b => a ≤ b)) (hx : x ∈ l) : l.headD d ≤ x := by
  cases l with
  | nil => cases hx
  | cons a t =>
    rcases List.mem_cons.mp hx with rfl | hxt
    · simp
    · simpa using (List.pairwise_cons.mp hs).1 x hxt

/-- The default-tailed last element of a non-empty list is a member. -/
theorem getLastD_mem : ∀ (l : List ℚ) (d : ℚ), l ≠ [] → l.getLastD d ∈ l
  | [], _, h => absurd rfl h
  | a :: l, d, _ => by
    rw [List.getLastD_cons]
    cases l with
    | nil => simp
    | cons b t =>
      exact List.mem_cons_of_mem a (getLastD_mem (b :: t) a (by simp))

/-- The subset the modelled estimator keeps is a sublist of the sorted copy. -/
theorem robustMinMax_kept_sublist (sorted : List ℚ) (nTrim m : Nat) :
    ((sorted.drop nTrim).take m).Sublist sorted :=
  ((sorted.drop nTrim).take_sublist m).trans (sorted.drop_sublist nTrim)

/-- The modelled estimator returns an ordered pair on every input. -/
theorem robustMinMax_fst_le_snd (values : List ℚ) (trimFraction : ℚ) :
    (robustMinMax values trimFraction).1 ≤ (robustMinMax values trimFraction).2 := by
  match hv : values with
  | [] => simp [robustMinMax]
  | v :: vs =>
    simp only [robustMinMax]
    set n : Nat := (v :: vs).length with hn
    set nTrim : Nat := trimFraction.num.toNat * n / trimFraction.den with hk
    set sorted : List ℚ := (v :: vs).insertionSort (fun a b => a ≤ b) with hsorted
    set kept : List ℚ :=
      if 2 * nTrim < n then (sorted.drop nTrim).take (n - 2 * nTrim) else sorted
      with hkept
    have hsort : sorted.Sorted (fun a b => a ≤ b) :=
      List.sorted_insertionSort (fun a b => a ≤ b) (v :: vs)
    have hlen : sorted.length = n := by
      rw [hsorted, List.length_insertionSort]
    have hkept_sorted : kept.Sorted (fun a b => a ≤ b) := by
      rw [hkept]
      split
      · exact List.Pairwise.sublist (robustMinMax_kept_sublist sorted nTrim _) hsort
      · exact hsort
    have hkept_ne : kept ≠ [] := by
      rw [hkept]
      split
      · have hpos : 0 < ((sorted.drop nTrim).take (n - 2 * nTrim)).length := by
          rw [List.length_take, List.length_drop, hlen]
          omega
        exact List.ne_nil_of_length_pos hpos
      · have hpos : 0 < sorted.length := by rw [hlen]; simp [hn]
        exact List.ne_nil_of_length_pos hpos
    exact sorted_headD_le v hkept_sorted (getLastD_mem kept v hkept_ne)

/-- On a non-empty input the upper bound the modelled estimator returns is
one of the input values. -/
theorem robustMinMax_snd_mem (values : List ℚ) (trimFraction : ℚ)
    (hne : values ≠ []) : (robustMinMax values trimFraction).2 ∈ values := by
  match hv : values with
  | [] => exact absurd rfl hne
  | v :: vs =>
    simp only [robustMinMax]
    set n : Nat := (v :: vs).length with hn
    set nTrim : Nat := trimFraction.num.toNat * n / trimFraction.den with hk
    set sorted : List ℚ := (v :: vs).insertionSort (fun a b => a ≤ b) with hsorted
    set kept : List ℚ :=
      if 2 * nTrim < n then (sorted.drop nTrim).take (n - 2 * nTrim) else sorted
      with hkept
    have hlen : sorted.length = n := by
      rw [hsorted, List.length_insertionSort]
    have hkept_ne : kept ≠ [] := by
      rw [hkept]
      split
      · have hpos : 0 < ((sorted.drop nTrim).take (n - 2 * nTrim)).length := by
          rw [List.length_take, List.length_drop, hlen]
          omega
        exact List.ne_nil_of_length_pos hpos
      · have hpos : 0 < sorted.length := by rw [hlen]; simp [hn]
        exact List.ne_nil_of_length_pos hpos
    have hsub : kept.Sublist sorted := by
      rw [hkept]
      split
      · exact robustMinMax_kept_sublist sorted nTrim _
      · exact List.Sublist.refl sorted
    have hmem : kept.getLastD v ∈ sorted :=
      hsub.subset (getLastD_mem kept v hkept_ne)
    exact (List.perm_insertionSort (fun a b => a ≤ b) (v :: vs)).subset hmem

/-- `resetMapRange` only rewrites `vizRange` and the redraw flag. -/
theorem resetMapRange_fields (s : PointCloudScalarQuantity) :
    (resetMapRange s).dataType = s.dataType ∧
    (resetMapRange s).dataRange = s.dataRange ∧
    (resetMapRange s).values = s.values ∧
    (resetMapRange s).pointProgram = s.pointProgram := by
  cases h : s.dataType <;> simp [resetMapRange, requestRedraw, h]

/-- After `resetMapRange` the display range is the mode transform of the
data range. -/
theorem resetMapRange_vizRange (s : PointCloudScalarQuantity) :
    (resetMapRange s).vizRange =
      match s.dataType with
      | DataType.STANDARD => s.dataRange
      | DataType.SYMMETRIC =>
        (-(max |s.dataRange.1| |s.dataRange.2|), max |s.dataRange.1| |s.dataRange.2|)
      | DataType.MAGNITUDE => (0, s.dataRange.2) := by
  cases h : s.dataType <;> simp [resetMapRange, requestRedraw, h]

/-- `resetMapRange` preserves the range invariant. -/
theorem rangeInv_resetMapRange {s : PointCloudScalarQuantity}
    (h : RangeInv s) : RangeInv (resetMapRange s) := by
  obtain ⟨hdr, hmag, _⟩ := h
  obtain ⟨hdt, hdr', _, _⟩ := resetMapRange_fields s
  refine ⟨by rw [hdr']; exact hdr, by rw [hdt, hdr']; exact hmag, ?_⟩
  rw [resetMapRange_vizRange]
  cases hcase : s.dataType with
  | STANDARD => exact hdr
  | SYMMETRIC =>
    have habs : 0 ≤ max |s.dataRange.1| |s.dataRange.2| :=
      le_trans (abs_nonneg s.dataRange.1) (le_max_left _ _)
    simpa using le_trans (neg_nonpos.mpr habs) habs
  | MAGNITUDE => simpa using hmag hcase

/-- Each of the four mutators, given valid arguments, preserves the range
invariant. -/
theorem rangeInv_applyMutator {s : PointCloudScalarQuantity} {c : MutatorCall}
    (h : RangeInv s) (hc : ValidCall c) : RangeInv (applyMutator s c) := by
  obtain ⟨hdr, hmag, hviz⟩ := h
  cases c with
  | resetMapRange => exact rangeInv_resetMapRange ⟨hdr, hmag, hviz⟩
  | setMapRange val =>
    exact ⟨hdr, hmag, by simpa [applyMutator, setMapRange, requestRedraw] using hc⟩
  | setColorMap val =>
    exact ⟨hdr, hmag, by simpa [applyMutator, setColorMap, requestRedraw] using hviz⟩
  | geometryChanged =>
    exact ⟨hdr, hmag, by simpa [applyMutator, geometryChanged] using hviz⟩

/-- Any sequence of valid mutator calls preserves the range invariant. -/
theorem rangeInv_foldl (calls : List MutatorCall) :
    ∀ (s : PointCloudScalarQuantity), RangeInv s →
      (∀ c ∈ calls, ValidCall c) → RangeInv (calls.foldl applyMutator s) := by
  induction calls with
  | nil => intro s hs _; exact hs
  | cons c rest ih =>
    intro s hs hvalid
    exact ih (applyMutator s c)
      (rangeInv_applyMutator hs (hvalid c (List.mem_cons_self c rest)))
      (fun d hd => hvalid d (List.mem_cons_of_mem c hd))

/-- The constructed state, before any mutator runs, satisfies the range
invariant whenever the data set is valid for its mode. -/
theorem rangeInv_construct (name : String) (values_ : List ℚ)
    (parentPoints : List (ℚ × ℚ × ℚ)) (dataType_ : DataType)
    (hvalid : ValidInput values_ dataType_) :
    RangeInv (construct name values_ parentPoints dataType_).1 := by
  have hmag : dataType_ = DataType.MAGNITUDE →
      0 ≤ (robustMinMax values_ (mkRat 1 100000)).2 := by
    intro hdt
    cases hv : values_ with
    | nil => simp [robustMinMax]
    | cons v vs =>
      exact hvalid hdt _ (hv ▸ robustMinMax_snd_mem values_ (mkRat 1 100000)
        (by rw [hv]; exact List.cons_ne_nil v vs))
  cases dataType_ <;>
    exact rangeInv_resetMapRange
      ⟨robustMinMax_fst_le_snd values_ (mkRat 1 100000), fun h => hmag h,
       le_refl 0⟩

/-- C1: for every `dataType` and every `dataRange`, `resetMapRange` computes
`vizRange` by the mode table: STANDARD copies `dataRange`; SYMMETRIC yields
`(-m, m)` with `m = max |dataRange.lo| |dataRange.hi|`; MAGNITUDE yields
`(0, dataRange.hi)`. -/
theorem c1_resetMapRange_mode_table (s : PointCloudScalarQuantity) :
    (s.dataType = DataType.STANDARD →
      (resetMapRange s).vizRange = s.dataRange) ∧
    (s.dataType = DataType.SYMMETRIC →
      (resetMapRange s).vizRange =
        (-(max |s.dataRange.1| |s.dataRange.2|),
         max |s.dataRange.1| |s.dataRange.2|)) ∧
    (s.dataType = DataType.MAGNITUDE →
      (resetMapRange s).vizRange = (0, s.dataRange.2)) := by
  refine ⟨?_, ?_, ?_⟩ <;> intro h <;> simp [resetMapRange, requestRedraw, h]

/-- Witness for C1 at a concrete SYMMETRIC state with `dataRange = (-3, 2)`. -/
theorem c1_resetMapRange_mode_table_witness :
    (resetMapRange (construct "w" [1, -3, 2] [(0, 0, 0), (1, 1, 1), (2, 2, 2)]
        DataType.SYMMETRIC).1).vizRange = (-(3 : ℚ), 3) := by
  have h := (c1_resetMapRange_mode_table
    (construct "w" [1, -3, 2] [(0, 0, 0), (1, 1, 1), (2, 2, 2)]
      DataType.SYMMETRIC).1).2.1 (by decide)
  rw [h]
  decide

/-- C6: for every `a ≤ b`, `setMapRange (a, b)` followed by `getMapRange`
returns exactly `(a, b)`: the setter stores the pair verbatim, with no
clamping or validation. -/
theorem c6_setMapRange_roundtrip (s : PointCloudScalarQuantity) (a b : ℚ)
    (_h : a ≤ b) : getMapRange (setMapRange s (a, b)) = (a, b) :=
  rfl

/-- Witness for C6 at a concrete state and the pair `(1, 2)`. -/
theorem c6_setMapRange_roundtrip_witness :
    (1 : ℚ) ≤ 2 ∧
    getMapRange (setMapRange (construct "w" [5] [(0, 0, 0)]
      DataType.STANDARD).1 (1, 2)) = (1, 2) :=
  ⟨by decide,
   c6_setMapRange_roundtrip (construct "w" [5] [(0, 0, 0)] DataType.STANDARD).1
     1 2 (by decide)⟩

/-- C7: `resetMapRange` is idempotent: on every state, running it twice
yields the same `vizRange` as running it once. -/
theorem c7_resetMapRange_idempotent (s : PointCloudScalarQuantity) :
    (resetMapRange (resetMapRange s)).vizRange = (resetMapRange s).vizRange := by
  cases h : s.dataType <;> simp [resetMapRange, requestRedraw, h]

/-- C8: for every colormap identifier, `setColorMap` followed by
`getColorMap` returns exactly that identifier; the setter validates
nothing. -/
theorem c8_setColorMap_roundtrip (s : PointCloudScalarQuantity)
    (id_ : ColorMapID) : getColorMap (setColorMap s id_) = id_ :=
  rfl

/-- C9: `geometryChanged` drops any built draw program — so an enabled
quantity rebuilds it on the next `draw` — and leaves `values`, `dataRange`
and `vizRange` unchanged. -/
theorem c9_geometryChanged_invalidates_program (s : PointCloudScalarQuantity) :
    (geometryChanged s).pointProgram = none ∧
    (geometryChanged s).values = s.values ∧
    (geometryChanged s).dataRange = s.dataRange ∧
    (geometryChanged s).vizRange = s.vizRange ∧
    (s.enabled = true →
      ((draw (geometryChanged s)).1.pointProgram).isSome = true) := by
  refine ⟨rfl, rfl, rfl, rfl, ?_⟩
  intro h
  simp [draw, geometryChanged, createPointProgram, h]

/-- Witness for C9 at a concrete enabled state with a built program. -/
theorem c9_geometryChanged_invalidates_program_witness :
    (geometryChanged (createPointProgram (construct "w" [4] [(0, 0, 0)]
        DataType.STANDARD).1)).pointProgram = none ∧
    ((draw (geometryChanged (createPointProgram (construct "w" [4] [(0, 0, 0)]
        DataType.STANDARD).1))).1.pointProgram).isSome = true := by
  have h := c9_geometryChanged_invalidates_program
    (createPointProgram (construct "w" [4] [(0, 0, 0)] DataType.STANDARD).1)
  exact ⟨h.1, h.2.2.2.2 (by decide)⟩

/-- C10: the pick readout `buildPickUI` indexes `values` with no bounds
check, so it is defined exactly when `ind < values.length`; and because a
length-mismatch construction is non-fatal, an index that is valid for the
owning cloud can still fall outside `values`. -/
theorem c10_buildPickUI_requires_index_in_values :
    (∀ (s : PointCloudScalarQuantity) (ind : Nat),
      (buildPickUI s ind).isSome = true ↔ ind < s.values.length) ∧
    (buildPickUI (construct "q" [1, 2, 3, 4, 5]
        (List.replicate 10 (0, 0, 0)) DataType.STANDARD).1 7 = none ∧
     7 < (construct "q" [1, 2, 3, 4, 5]
        (List.replicate 10 (0, 0, 0)) DataType.STANDARD).1.parentPoints.length) := by
  constructor
  · intro s ind
    rw [buildPickUI, Option.isSome_map', Option.isSome_iff_ne_none, ne_eq,
      List.get?_eq_none]
    omega
  · exact ⟨by decide, by decide⟩

/-- C2: for every valid input data set and every sequence of mutator calls
with valid arguments, `vizRange.lo ≤ vizRange.hi` holds after construction
and after every mutator call, i.e. after every prefix of the sequence. -/
theorem c2_vizRange_invariant (name : String) (values_ : List ℚ)
    (parentPoints : List (ℚ × ℚ × ℚ)) (dataType_ : DataType)
    (hvalid : ValidInput values_ dataType_)
    (calls pre suf : List MutatorCall)
    (hsplit : calls = pre ++ suf)
    (hcalls : ∀ c ∈ calls, ValidCall c) :
    ((construct name values_ parentPoints dataType_).1.vizRange.1 ≤
      (construct name values_ parentPoints dataType_).1.vizRange.2) ∧
    ((pre.foldl applyMutator
        (construct name values_ parentPoints dataType_).1).vizRange.1 ≤
      (pre.foldl applyMutator
        (construct name values_ parentPoints dataType_).1).vizRange.2) := by
  have h0 := rangeInv_construct name values_ parentPoints dataType_ hvalid
  have hpre : ∀ c ∈ pre, ValidCall c := fun c hc =>
    hcalls c (hsplit ▸ List.mem_append_left suf hc)
  exact ⟨h0.2.2, (rangeInv_foldl pre _ h0 hpre).2.2⟩

/-- Witness for C2: MAGNITUDE mode on non-negative data, with a prefix of a
valid call sequence applied. -/
theorem c2_vizRange_invariant_witness :
    ((construct "w" [1, 2] [(0, 0, 0), (1, 1, 1)] DataType.MAGNITUDE).1.vizRange.1 ≤
      (construct "w" [1, 2] [(0, 0, 0), (1, 1, 1)] DataType.MAGNITUDE).1.vizRange.2) ∧
    (([MutatorCall.setMapRange (0, 1), MutatorCall.resetMapRange].foldl applyMutator
        (construct "w" [1, 2] [(0, 0, 0), (1, 1, 1)] DataType.MAGNITUDE).1).vizRange.1 ≤
      ([MutatorCall.setMapRange (0, 1), MutatorCall.resetMapRange].foldl applyMutator
        (construct "w" [1, 2] [(0, 0, 0), (1, 1, 1)] DataType.MAGNITUDE).1).vizRange.2) :=
  c2_vizRange_invariant "w" [1, 2] [(0, 0, 0), (1, 1, 1)] DataType.MAGNITUDE
    (by intro _h v hv; fin_cases hv <;> decide)
    [MutatorCall.setMapRange (0, 1), MutatorCall.resetMapRange,
     MutatorCall.geometryChanged]
    [MutatorCall.setMapRange (0, 1), MutatorCall.resetMapRange]
    [MutatorCall.geometryChanged]
    rfl
    (by intro c hc; fin_cases hc <;> simp [ValidCall])

/-- C3 counterexample: at a concrete state with a built program,
`setColorMap` leaves the program exactly as it was — still present, still
baking the old colormap `0` while the new map is `5` — and the next `draw`
reuses it instead of rebuilding, refuting the claim that a colormap change
via `setColorMap` invalidates the program. -/
theorem c3_counterexample :
    (setColorMap (createPointProgram
        (construct "q" [1] [(0, 0, 0)] DataType.STANDARD).1) 5).pointProgram =
      (createPointProgram
        (construct "q" [1] [(0, 0, 0)] DataType.STANDARD).1).pointProgram ∧
    ((setColorMap (createPointProgram
        (construct "q" [1] [(0, 0, 0)] DataType.STANDARD).1) 5).pointProgram).isSome
      = true ∧
    (draw (setColorMap (createPointProgram
        (construct "q" [1] [(0, 0, 0)] DataType.STANDARD).1) 5)).1.pointProgram =
      some ({ a_position := [(0, 0, 0)], a_value := [1], t_colormap := 0 } :
        GLProgramData) ∧
    (setColorMap (createPointProgram
        (construct "q" [1] [(0, 0, 0)] DataType.STANDARD).1) 5).cMap = 5 := by
  refine ⟨rfl, rfl, ?_, rfl⟩
  decide

/-- C3 amended: the draw program is invalidated by the UI colormap-selection
path — `buildCustomUI` drops it when the selector reports a change, before
calling `setColorMap` — while `setColorMap` itself and `setMapRange` leave
the draw program untouched. -/
theorem c3_program_invalidation (s : PointCloudScalarQuantity) (ui : UIEvents)
    (c : ColorMapID) (r : ℚ × ℚ)
    (hsel : ui.colormapSelection = some c) :
    (buildCustomUI s ui).pointProgram = none ∧
    (setColorMap s c).pointProgram = s.pointProgram ∧
    (setMapRange s r).pointProgram = s.pointProgram := by
  refine ⟨?_, rfl, rfl⟩
  by_cases ho : ui.optionsResetClicked <;>
  by_cases hr : ui.resetClicked <;>
  cases hsl : ui.sliderEdit <;>
    simp [buildCustomUI, hsel, ho, hr, hsl, setColorMap, getColorMap,
      requestRedraw, (resetMapRange_fields _).2.2.2]

/-- Witness for C3 amended, at a concrete state and a concrete frame whose
selector reports colormap `5`. -/
theorem c3_program_invalidation_witness :
    (buildCustomUI (createPointProgram
        (construct "q" [1] [(0, 0, 0)] DataType.STANDARD).1)
        { optionsResetClicked := false, colormapSelection := some 5,
          resetClicked := false, sliderEdit := none }).pointProgram = none ∧
    (setColorMap (createPointProgram
        (construct "q" [1] [(0, 0, 0)] DataType.STANDARD).1) 5).pointProgram =
      (createPointProgram
        (construct "q" [1] [(0, 0, 0)] DataType.STANDARD).1).pointProgram ∧
    (setMapRange (createPointProgram
        (construct "q" [1] [(0, 0, 0)] DataType.STANDARD).1) (0, 1)).pointProgram =
      (createPointProgram
        (construct "q" [1] [(0, 0, 0)] DataType.STANDARD).1).pointProgram :=
  c3_program_invalidation
    (createPointProgram (construct "q" [1] [(0, 0, 0)] DataType.STANDARD).1)
    { optionsResetClicked := false, colormapSelection := some 5,
      resetClicked := false, sliderEdit := none }
    5 (0, 1) rfl

/-- The order of construction steps the claim states: copy values, pick the
default colormap, estimate the range, apply the reset transform, then notify
the histogram. -/
def claimedCtorOrder : List CtorStep :=
  [CtorStep.copyValues, CtorStep.pickDefaultColormap,
   CtorStep.estimateRange (mkRat 1 100000), CtorStep.resetRangeTransform,
   CtorStep.notifyHistColormap, CtorStep.notifyHistDistribution]

/-- C4 counterexample: at a concrete call the constructor's step trace is
not the claimed order — the default colormap is picked in the initializer
list before the copy, and the histogram is notified before the range
estimate and the reset transform, not after them. -/
theorem c4_counterexample :
    (construct "q" [1] [(0, 0, 0)] DataType.STANDARD).2 ≠ claimedCtorOrder := by
  decide

/-- C4 amended: construction performs its steps in this order: pick the
dataType-keyed default colormap (initializer list); copy the values; notify
the Histogram collaborator of the initial colormap and of the value
distribution; run the robust range estimator with trim fraction `1e-5` to
obtain `dataRange`; apply the reset-range transform to derive the initial
`vizRange`. -/
theorem c4_ctor_step_order (name : String) (values_ : List ℚ)
    (parentPoints : List (ℚ × ℚ × ℚ)) (dataType_ : DataType) :
    (construct name values_ parentPoints dataType_).2 =
      [CtorStep.pickDefaultColormap, CtorStep.copyValues,
       CtorStep.notifyHistColormap, CtorStep.notifyHistDistribution,
       CtorStep.estimateRange (mkRat 1 100000), CtorStep.resetRangeTransform] :=
  rfl

/-- C5: a construction whose value count differs from the owning cloud's
point count records a validation error in the log, does not abort, and
stores the provided values — their length, not the cloud's point count. -/
theorem c5_length_mismatch_nonfatal (name : String) (values_ : List ℚ)
    (parentPoints : List (ℚ × ℚ × ℚ)) (dataType_ : DataType)
    (hmis : values_.length ≠ parentPoints.length) :
    (construct name values_ parentPoints dataType_).1.values = values_ ∧
    (construct name values_ parentPoints dataType_).1.values.length =
      values_.length ∧
    (construct name values_ parentPoints dataType_).1.errorLog ≠ [] := by
  have hv : (construct name values_ parentPoints dataType_).1.values = values_ := by
    cases dataType_ <;> rfl
  refine ⟨hv, by rw [hv], ?_⟩
  cases dataType_ <;> simp [construct, resetMapRange, requestRedraw, hmis]

/-- Witness for C5: five values for a ten-point cloud. -/
theorem c5_length_mismatch_nonfatal_witness :
    (construct "q" [1, 2, 3, 4, 5] (List.replicate 10 (0, 0, 0))
        DataType.STANDARD).1.values = [1, 2, 3, 4, 5] ∧
    (construct "q" [1, 2, 3, 4, 5] (List.replicate 10 (0, 0, 0))
        DataType.STANDARD).1.values.length = ([1, 2, 3, 4, 5] : List ℚ).length ∧
    (construct "q" [1, 2, 3, 4, 5] (List.replicate 10 (0, 0, 0))
        DataType.STANDARD).1.errorLog ≠ [] :=
  c5_length_mismatch_nonfatal "q" [1, 2, 3, 4, 5]
    (List.replicate 10 (0, 0, 0)) DataType.STANDARD (by decide)

end Polyscope
